import Mathlib

/-
Shallow embedding of the node-management agent in wrapper.py.

The poll loop (wrapper.py lines 406-552) is modelled from the timestamp
check onward: processing one verified command batch against one feed of
the agent state.  Filesystem content is an association list from path
strings to files (data bytes plus a permission mode); the external
collaborators (S3 transfer, SHA-256, OpenSSL verification) are function
parameters of the environment, matching the spec treatment of them as
external capabilities.  Python exceptions are modelled explicitly: an
operation that raises propagates as Outcome.raised to the outer
try/except of the poll loop (wrapper.py lines 550-552).
-/

/-- A file on the local filesystem: its byte content and permission mode. -/
structure File where
  data : List Nat
  mode : Nat
deriving DecidableEq, Repr

/-- The local filesystem as an association list from paths to files. -/
abbrev FS := List (String × File)

/-- Read a file (open for reading): none models a raised IOError. -/
def getF : FS → String → Option File
  | [], _ => none
  | (q, g) :: rest, p => if q = p then some g else getF rest p

/-- Write or overwrite a file at a path. -/
def setF : FS → String → File → FS
  | [], p, f => [(p, f)]
  | (q, g) :: rest, p, f => if q = p then (p, f) :: rest else (q, g) :: setF rest p f

/-- Remove a file at a path (the source side of os.replace). -/
def delF : FS → String → FS
  | [], _ => []
  | (q, g) :: rest, p => if q = p then delF rest p else (q, g) :: delF rest p

/-- Static configuration computed at startup (wrapper.py lines 340-380). -/
structure Config where
  binary_path : String
  wrapper_path : String
  config_file : String
  cert_path : String
  management_directory : String
  disableupdates : Bool
deriving DecidableEq, Repr

/-- The valid install paths the agent may write to (wrapper.py lines 375-380).
The binary entry is the configured binary path, the wrapper entry the
absolute path of the running script. -/
def valid_paths (c : Config) : List (String × String) :=
  [("binary", c.binary_path), ("wrapper", c.wrapper_path),
   ("config", c.config_file), ("cert", c.cert_path)]

/-- Environment of external collaborators: SHA-256 hex digest of bytes
(hashlib), the remote store keyed by path (S3 download source; none models
a failed download, which the download helper logs and swallows), an oracle
for OS-level os.replace failure, and the resolved node id. -/
structure Env where
  cfg : Config
  sha256 : List Nat → String
  remote : String → Option (List Nat)
  replaceFails : String → String → Bool
  node_id : String

/-- The info dictionary of a command entry, with the defaults the code
uses via dict.get (wrapper.py lines 491, 502, 512, 524). -/
structure Info where
  install_path : String := ""
  path : String := ""
  sha256sum : String := ""
  time : Nat := 0
deriving DecidableEq, Repr

/-- One command entry of a batch (wrapper.py lines 462-472). -/
structure CommandEntry where
  nodes : Option (List String) := none
  command : String := ""
  info : Info := {}
deriving DecidableEq, Repr

/-- A decoded command batch: the signed payload dict (wrapper.py lines
446, 462). -/
structure Batch where
  timestamp : Int := 0
  commands : List CommandEntry := []
deriving DecidableEq, Repr

/-- Observable Supervisor and Update side effects of dispatching commands. -/
inductive Effect where
  | startProc (bin : String) (configArg : Option String)
  | termProc
  | sleep (ms : Nat)
  | download (remoteKey localPath : String)
  | replace (src dst : String)
  | chmod (path : String) (mode : Nat)
  | exit (code : Nat)
deriving DecidableEq, Repr

/-- How one command entry finished: fall through to the next entry,
raise to the outer except of the poll loop, or exit the process. -/
inductive Outcome where
  | next
  | raised
  | exited
deriving DecidableEq, Repr

/-- Mutable per-feed agent state: the filesystem, the supervised process
(none when never started, some true when alive, some false when exited)
and the feed timestamp (the lastAppliedTimestamp slot of wrapper.py line
384). -/
structure St where
  fs : FS
  process : Option Bool := none
  ts : Int := 0
deriving DecidableEq, Repr

/-- stat.S_IEXEC, the owner-execute permission bit (octal 100). -/
def S_IEXEC : Nat := 64

/-- Default mode of a freshly downloaded file (octal 644). -/
def downloadMode : Nat := 420

/-- The remote key of an update artifact (wrapper.py lines 511-512). -/
def updatePathOf (env : Env) (info : Info) : String :=
  env.cfg.management_directory ++ "/" ++ info.path

/-- Filesystem after the download helper ran: on success the bytes are
written to the local path, on failure the helper logs and leaves the
filesystem unchanged (wrapper.py lines 68-100, 517-519). -/
def fsAfterDownload (env : Env) (fs : FS) (updatePath tmpPath : String) : FS :=
  match env.remote updatePath with
  | some bs => setF fs tmpPath ⟨bs, downloadMode⟩
  | none => fs

/-- The update command branch (wrapper.py lines 495-545): check the
disableupdates flag, resolve the install path key against valid_paths,
download to a sibling .tmp path, read it back (raising if absent),
compare the SHA-256 hex digest by string equality, os.replace the tmp
file over the target, chmod the configured binary path to S_IEXEC
(raising if that file is absent), and compare the resolved install path
against the literal string wrapper to decide whether to exit. -/
def execUpdate (env : Env) (timestamp : Int) (info : Info) (st : St) :
    Outcome × St × List Effect :=
  if env.cfg.disableupdates then
    (Outcome.next, {st with ts := timestamp}, [])
  else
    match List.lookup info.install_path (valid_paths env.cfg) with
    | none => (Outcome.next, {st with ts := timestamp}, [])
    | some install_path =>
      let update_path := updatePathOf env info
      let tmp_path := install_path ++ ".tmp"
      let fs1 := fsAfterDownload env st.fs update_path tmp_path
      match getF fs1 tmp_path with
      | none =>
        (Outcome.raised, {st with fs := fs1}, [Effect.download update_path tmp_path])
      | some tmpFile =>
        if env.sha256 tmpFile.data ≠ info.sha256sum then
          (Outcome.next, {st with fs := fs1, ts := timestamp},
            [Effect.download update_path tmp_path])
        else if env.replaceFails tmp_path install_path then
          (Outcome.next, {st with fs := fs1, ts := timestamp},
            [Effect.download update_path tmp_path])
        else
          let fs2 := setF (delF fs1 tmp_path) install_path tmpFile
          match getF fs2 env.cfg.binary_path with
          | none =>
            (Outcome.raised, {st with fs := fs2},
              [Effect.download update_path tmp_path,
               Effect.replace tmp_path install_path])
          | some bf =>
            let fs3 := setF fs2 env.cfg.binary_path ⟨bf.data, S_IEXEC⟩
            if install_path = "wrapper" then
              (Outcome.exited, {st with fs := fs3},
                [Effect.download update_path tmp_path,
                 Effect.replace tmp_path install_path,
                 Effect.chmod env.cfg.binary_path S_IEXEC,
                 Effect.exit 0])
            else
              (Outcome.next, {st with fs := fs3},
                [Effect.download update_path tmp_path,
                 Effect.replace tmp_path install_path,
                 Effect.chmod env.cfg.binary_path S_IEXEC])

/-- Dispatch on the command string (wrapper.py lines 471-546): start only
when no live process exists (start_binary raises when the binary file is
missing), stop terminates any recorded process, delay sleeps, update runs
the update branch, and an unknown command string falls through. -/
def execCmd (env : Env) (timestamp : Int) (cmd : CommandEntry) (st : St) :
    Outcome × St × List Effect :=
  if cmd.command = "start" then
    if st.process = some true then (Outcome.next, st, [])
    else if getF st.fs env.cfg.binary_path = none then (Outcome.raised, st, [])
    else if (getF st.fs env.cfg.config_file).isSome then
      (Outcome.next, {st with process := some true},
        [Effect.startProc env.cfg.binary_path (some env.cfg.config_file)])
    else
      (Outcome.next, {st with process := some true},
        [Effect.startProc env.cfg.binary_path none])
  else if cmd.command = "stop" then
    match st.process with
    | none => (Outcome.next, st, [])
    | some _ => (Outcome.next, {st with process := some false}, [Effect.termProc])
  else if cmd.command = "delay" then
    (Outcome.next, st, [Effect.sleep cmd.info.time])
  else if cmd.command = "update" then
    execUpdate env timestamp cmd.info st
  else
    (Outcome.next, st, [])

/-- One command entry (wrapper.py lines 462-469): when a nonempty nodes
list is present and the node id is not in it, the entry is skipped and
the feed timestamp is still set; otherwise dispatch. -/
def execEntry (env : Env) (timestamp : Int) (cmd : CommandEntry) (st : St) :
    Outcome × St × List Effect :=
  match cmd.nodes with
  | some targets =>
    if !targets.isEmpty && !targets.contains env.node_id then
      (Outcome.next, {st with ts := timestamp}, [])
    else execCmd env timestamp cmd st
  | none => execCmd env timestamp cmd st

/-- Run the entries of a batch in sequence; a raised exception or a
process exit stops the remaining entries (the exception lands in the
outer except of wrapper.py lines 550-552). -/
def runEntries (env : Env) (t : Int) : List CommandEntry → St → Outcome × St × List Effect
  | [], st => (Outcome.next, st, [])
  | c :: cs, st =>
    match execEntry env t c st with
    | (Outcome.next, st1, es1) =>
      match runEntries env t cs st1 with
      | (o, st2, es2) => (o, st2, es1 ++ es2)
    | (Outcome.raised, st1, es1) => (Outcome.raised, st1, es1)
    | (Outcome.exited, st1, es1) => (Outcome.exited, st1, es1)

/-- Process one verified batch against one feed (wrapper.py lines
446-552, from the timestamp check onward): a batch whose timestamp does
not strictly exceed the feed timestamp is skipped with no effect; when
the entry run completes normally the feed timestamp is set to the batch
timestamp (line 549); a raised exception or an exit skips that final
assignment. -/
def processBatch (env : Env) (b : Batch) (st : St) : St × List Effect :=
  if b.timestamp ≤ st.ts then (st, [])
  else
    match runEntries env b.timestamp b.commands st with
    | (Outcome.next, st1, es) => ({st1 with ts := b.timestamp}, es)
    | (Outcome.raised, st1, es) => (st1, es)
    | (Outcome.exited, st1, es) => (st1, es)

/-- The startup initialization of the per-feed timestamps (wrapper.py
line 384): index 0 is the version feed, index 1 the command feed, and
now is the startup clock reading. -/
def timestamps (now : Int) : List Int := [0, now]

/-- The two-line signed envelope as read from the downloaded feed file. -/
structure Envelope where
  line1 : String
  line2 : String
deriving DecidableEq, Repr

/-- The command verifier (wrapper.py lines 234-258).  certRead is the
result of opening the certificate file: none models an unreadable file,
and that open sits outside the try block, so it surfaces as Except.error.
Inside the try, load_certificate, JSON decoding of both lines, the
signature field lookup, base64 decoding and the OpenSSL verification are
collaborator functions returning none (or false) where the library call
raises; every such failure collapses to the pair of the best-effort
parsed payload and false. -/
def verify_cmd : Option String → (String → Option String) → Envelope →
    (String → Option Batch) → (String → Option (Option String)) →
    (String → Option (List Nat)) → (String → List Nat → String → Bool) →
    Except Unit (Option Batch × Bool)
  | none, _, _, _, _, _, _ => Except.error ()
  | some pem, load_certificate, inbuf, parseBatch, parseSig, b64decode, cryptoVerify =>
    Except.ok <|
      match load_certificate pem with
      | none => (none, false)
      | some key =>
        match parseBatch inbuf.line1.trim with
        | none => (none, false)
        | some command_json =>
          match parseSig inbuf.line2 with
          | none => (some command_json, false)
          | some sigField =>
            match sigField with
            | none => (some command_json, false)
            | some sigStr =>
              match b64decode sigStr with
              | none => (some command_json, false)
              | some signature =>
                if cryptoVerify key signature inbuf.line1.trim then
                  (some command_json, true)
                else (some command_json, false)

/-- A concrete startup configuration used by witnesses. -/
def cfg0 : Config where
  binary_path := "/opt/bin/node"
  wrapper_path := "/opt/xxnetwork/wrapper.py"
  config_file := "/home/u/.xxnetwork/node.yaml"
  cert_path := "/home/u/.xxnetwork/creds/network_management.crt"
  management_directory := "mgmt"
  disableupdates := false

/-- A concrete environment used by witnesses: the digest collaborator
answers the lowercase hex string aa for every input, and the remote store
carries three artifacts. -/
def env0 : Env where
  cfg := cfg0
  sha256 := fun _ => "aa"
  remote := fun p =>
    if p = "mgmt/v2/node" then some [1, 2, 3]
    else if p = "mgmt/v2/wrapper" then some [4, 5]
    else if p = "mgmt/v2/config" then some [7]
    else none
  replaceFails := fun _ _ => false
  node_id := "node-1"

/-- A filesystem holding only the supervised binary. -/
def fs0 : FS := [("/opt/bin/node", ⟨[9], 493⟩)]

/-- A plain stop command entry. -/
def stopEntry : CommandEntry := { command := "stop" }

/-- A stale batch: its timestamp 2 does not exceed the feed value 3. -/
def bStale : Batch := ⟨2, [stopEntry]⟩

/-- Feed state with a running process and feed timestamp 3. -/
def stC1 : St := ⟨fs0, some true, 3⟩

/-- An update of the wrapper key with a matching digest. -/
def info2 : Info := ⟨"wrapper", "v2/wrapper", "aa", 0⟩

/-- Feed state with no process and feed timestamp 0. -/
def st2 : St := ⟨fs0, none, 0⟩

/-- A batch whose first entry raises (its artifact is missing from the
remote store and no stale tmp file exists) and whose second entry is a
stop command. -/
def b3 : Batch := ⟨50, [⟨none, "update", ⟨"binary", "missing", "aa", 0⟩⟩, stopEntry]⟩

/-- Feed state with a running process and feed timestamp 10. -/
def st3 : St := ⟨fs0, some true, 10⟩

/-- A batch whose first entry is rejected by the hash check (a handled
failure) and whose second entry is a stop command. -/
def b3w : Batch := ⟨21, [⟨none, "update", ⟨"binary", "v2/node", "ZZ", 0⟩⟩, stopEntry]⟩

/-- Feed state with a running process and feed timestamp 2. -/
def st3w : St := ⟨fs0, some true, 2⟩

/-- A batch carrying one stop command with a timestamp before startup. -/
def b4 : Batch := ⟨5, [stopEntry]⟩

/-- The version-feed state right after a startup at clock 1000. -/
def st4 : St := ⟨fs0, some true, List.getD (timestamps 1000) 0 0⟩

/-- An update whose expected digest differs from the actual lowercase
digest aa only in hex-letter case. -/
def info5 : Info := ⟨"binary", "v2/node", "AA", 0⟩

/-- Feed state with no process and feed timestamp 0. -/
def st5 : St := ⟨fs0, none, 0⟩

/-- An update of the config key with a matching digest. -/
def infoC : Info := ⟨"config", "v2/config", "aa", 0⟩

/-- Feed state with no process and feed timestamp 0. -/
def stC : St := ⟨fs0, none, 0⟩

/-- An update whose expected digest ZZ does not match the actual aa. -/
def info8 : Info := ⟨"binary", "v2/node", "ZZ", 0⟩

/-- Feed state with no process and feed timestamp 0. -/
def st8 : St := ⟨fs0, none, 0⟩

/-- An update naming an install path key outside the registry. -/
def info9 : Info := ⟨"../etc/passwd", "x", "h", 0⟩

/-- An update of the cert key with a matching digest. -/
def infoC10 : Info := ⟨"cert", "v2/config", "aa", 0⟩

/-- Concrete verifier collaborators for the witness runs. -/
def loadC7 : String → Option String := fun _ => some "K"

/-- Concrete payload decoder for the witness runs. -/
def parseB7 : String → Option Batch := fun _ => some ⟨3, []⟩

/-- Concrete signature-line decoder for the witness runs. -/
def parseS7 : String → Option (Option String) := fun _ => some (some "sg")

/-- Concrete base64 decoder for the witness runs. -/
def b647 : String → Option (List Nat) := fun _ => some [1]

/-- Concrete signature check for the witness runs. -/
def verif7 : String → List Nat → String → Bool := fun _ _ _ => true

/-- Concrete envelope for the witness runs. -/
def env7 : Envelope := ⟨"c1", "c2"⟩

theorem getF_setF_self (fs : FS) (p : String) (f : File) :
    getF (setF fs p f) p = some f := by
  induction fs with
  | nil => simp [setF, getF]
  | cons hd tl ih =>
    obtain ⟨q, g⟩ := hd
    by_cases h : q = p <;> simp [setF, getF, h, ih]

theorem getF_setF_ne (fs : FS) (p q : String) (f : File) (h : p ≠ q) :
    getF (setF fs p f) q = getF fs q := by
  induction fs with
  | nil => simp [setF, getF, h]
  | cons hd tl ih =>
    obtain ⟨r, g⟩ := hd
    by_cases hr : r = p <;> simp [setF, getF, hr, h, ih]

theorem getF_delF_ne (fs : FS) (p q : String) (h : p ≠ q) :
    getF (delF fs p) q = getF fs q := by
  induction fs with
  | nil => simp [delF, getF]
  | cons hd tl ih =>
    obtain ⟨r, g⟩ := hd
    by_cases hr : r = p
    · subst hr; simp [delF, getF, h, ih]
    · simp [delF, getF, hr, ih]

theorem append_tmp_ne (s : String) : s ++ ".tmp" ≠ s := by
  intro h
  have hd : (s ++ ".tmp").data = s.data := congrArg String.data h
  rw [String.data_append] at hd
  have : (".tmp" : String).data = [] := by
    have := hd
    conv at this => rhs; rw [show s.data = s.data ++ [] by simp]
    exact List.append_cancel_left this
  simp at this

theorem execUpdate_ts (env : Env) (t : Int) (info : Info) (st : St) :
    (execUpdate env t info st).2.1.ts = st.ts ∨ (execUpdate env t info st).2.1.ts = t := by
  simp only [execUpdate]
  repeat' split
  all_goals first
  | (left; rfl)
  | (right; rfl)

theorem execCmd_ts (env : Env) (t : Int) (cmd : CommandEntry) (st : St) :
    (execCmd env t cmd st).2.1.ts = st.ts ∨ (execCmd env t cmd st).2.1.ts = t := by
  simp only [execCmd]
  repeat' split
  all_goals first
  | exact execUpdate_ts env t cmd.info st
  | (left; rfl)
  | (right; rfl)

theorem execEntry_ts (env : Env) (t : Int) (cmd : CommandEntry) (st : St) :
    (execEntry env t cmd st).2.1.ts = st.ts ∨ (execEntry env t cmd st).2.1.ts = t := by
  simp only [execEntry]
  repeat' split
  all_goals first
  | exact execCmd_ts env t cmd st
  | (left; rfl)
  | (right; rfl)

theorem runEntries_ts (env : Env) (t : Int) :
    ∀ (cs : List CommandEntry) (st : St),
      (runEntries env t cs st).2.1.ts = st.ts ∨ (runEntries env t cs st).2.1.ts = t := by
  intro cs
  induction cs with
  | nil => intro st; simp [runEntries]
  | cons c cs ih =>
    intro st
    unfold runEntries
    rcases h1 : execEntry env t c st with ⟨o, st1, es1⟩
    have hts : st1.ts = st.ts ∨ st1.ts = t := by
      have h := execEntry_ts env t c st
      rw [h1] at h; exact h
    cases o with
    | next =>
      rcases h2 : runEntries env t cs st1 with ⟨o2, st2, es2⟩
      have hts2 : st2.ts = st1.ts ∨ st2.ts = t := by
        have h := ih st1
        rw [h2] at h; exact h
      rcases hts2 with h' | h' <;> rcases hts with h'' | h'' <;> simp [h2, h', h'']
    | raised => simpa using hts
    | exited => simpa using hts

theorem processBatch_ts_mono (env : Env) (b : Batch) (st : St) :
    st.ts ≤ (processBatch env b st).1.ts := by
  unfold processBatch
  split
  · simp
  · rename_i hgt
    have hlt : st.ts < b.timestamp := lt_of_not_le hgt
    rcases h : runEntries env b.timestamp b.commands st with ⟨o, st1, es⟩
    have hts : st1.ts = st.ts ∨ st1.ts = b.timestamp := by
      have h' := runEntries_ts env b.timestamp b.commands st
      rw [h] at h'; exact h'
    cases o <;> simp <;> rcases hts with h' | h' <;> omega

/-- Claim C1: for every feed, a command batch is dispatched (producing
Supervisor or Update side effects) only if its timestamp strictly exceeds
the feed lastAppliedTimestamp; the feed timestamp is monotonically
non-decreasing across poll ticks; and a batch whose timestamp is at most
the current feed value leaves the state untouched and produces no
observable Supervisor or Update side effects. -/
theorem claim_C1_replay_guard_and_monotone (env : Env) (b : Batch) (st : St) :
    st.ts ≤ (processBatch env b st).1.ts ∧
    (b.timestamp ≤ st.ts → processBatch env b st = (st, [])) := by
  refine ⟨processBatch_ts_mono env b st, fun h => ?_⟩
  unfold processBatch
  simp [h]

theorem claim_C1_witness :
    stC1.ts ≤ (processBatch env0 bStale stC1).1.ts ∧
    processBatch env0 bStale stC1 = (stC1, []) := by
  have h := claim_C1_replay_guard_and_monotone env0 bStale stC1
  exact ⟨h.1, h.2 (by decide)⟩

/-- Claim C2 (code bug): a successfully applied update of the wrapper key
does not terminate the process.  Line 508 of wrapper.py reassigns
install_path to the resolved absolute path, so the later comparison
against the literal string wrapper (line 543) can never fire and sys.exit
is dead code: the run below replaces the wrapper file, emits no exit
effect, and falls through to the next entry. -/
theorem claim_C2_wrapper_update_does_not_exit :
    (execUpdate env0 9 info2 st2).1 = Outcome.next ∧
    Effect.exit 0 ∉ (execUpdate env0 9 info2 st2).2.2 ∧
    Effect.replace ("/opt/xxnetwork/wrapper.py" ++ ".tmp") "/opt/xxnetwork/wrapper.py"
      ∈ (execUpdate env0 9 info2 st2).2.2 := by decide

/-- Claim C3 counterexample: batch b3 passes the replay guard (50 above
10), its first entry raises (the artifact is missing from the remote
store, so reading the tmp file raises), and then the feed timestamp is
NOT set to the batch timestamp and the second entry (a stop command) is
never executed: the claim fails as stated. -/
theorem claim_C3_counterexample :
    (processBatch env0 b3 st3).1.ts = 10 ∧ (10 : Int) ≠ 50 ∧
    Effect.termProc ∉ (processBatch env0 b3 st3).2 := by decide

/-- Claim C3 (amended): for a batch that passes the replay guard, if the
entry run completes without an unhandled exception the feed timestamp is
set to the batch timestamp even if individual entries were skipped or
rejected; and any entry that finishes with the normal continue outcome
(which includes every handled per-entry failure such as a hash mismatch)
does not stop processing of the remaining entries. -/
theorem claim_C3_amended_batch_consumed (env : Env) (b : Batch) (st : St)
    (h : st.ts < b.timestamp) :
    ((runEntries env b.timestamp b.commands st).1 = Outcome.next →
      (processBatch env b st).1.ts = b.timestamp) ∧
    (∀ (c : CommandEntry) (cs : List CommandEntry) (st1 : St),
      (execEntry env b.timestamp c st1).1 = Outcome.next →
      (runEntries env b.timestamp (c :: cs) st1).1 =
        (runEntries env b.timestamp cs (execEntry env b.timestamp c st1).2.1).1) := by
  constructor
  · intro hok
    unfold processBatch
    rw [if_neg (not_le.mpr h)]
    rcases hr : runEntries env b.timestamp b.commands st with ⟨o, st', es⟩
    rw [hr] at hok
    simp only at hok
    subst hok
    rfl
  · intro c cs st1 hc
    rcases he : execEntry env b.timestamp c st1 with ⟨o, s1, e1⟩
    rw [he] at hc
    simp only at hc
    subst hc
    rcases hr : runEntries env b.timestamp cs s1 with ⟨o2, s2, e2⟩
    unfold runEntries
    simp [he, hr]

theorem claim_C3_witness :
    (processBatch env0 b3w st3w).1.ts = 21 ∧
    Effect.termProc ∈ (processBatch env0 b3w st3w).2 := by
  have h := claim_C3_amended_batch_consumed env0 b3w st3w (by decide)
  exact ⟨h.1 (by decide), by decide⟩

/-- Claim C4 counterexample: the startup initialization (wrapper.py line
384) sets the version feed (index 0) to 0, not to the current time: at a
startup clock of 1000, a batch with timestamp 5 (predating startup) is
applied on the version feed and produces a Supervisor side effect. -/
theorem claim_C4_counterexample :
    List.getD (timestamps 1000) 0 0 = 0 ∧ (5 : Int) < 1000 ∧
    (processBatch env0 b4 st4).2 = [Effect.termProc] := by decide

/-- Claim C4 (amended): at startup the command feed (index 1) timestamp
is initialized to the current time, so on the command feed any batch
whose timestamp predates startup is ignored; the version feed (index 0)
is initialized to 0 instead, so there only batches with non-positive
timestamps are ignored. -/
theorem claim_C4_amended_init (now : Int) (env : Env) (b : Batch) (fs : FS)
    (pr : Option Bool) (h : b.timestamp ≤ now) :
    timestamps now = [0, now] ∧
    processBatch env b ⟨fs, pr, now⟩ = (⟨fs, pr, now⟩, []) := by
  refine ⟨rfl, ?_⟩
  unfold processBatch
  simp [h]

theorem claim_C4_witness :
    timestamps 1000 = [0, 1000] ∧
    processBatch env0 b4 ⟨fs0, some true, 1000⟩ = (⟨fs0, some true, 1000⟩, []) :=
  claim_C4_amended_init 1000 env0 b4 fs0 (some true) (by decide)

/-- Claim C5 counterexample: the digest comparison (wrapper.py line 525)
is exact string inequality, not case-insensitive: with an actual
lowercase digest aa and an expected digest AA differing only in
hex-letter case, the update is rejected (only the download effect is
emitted, no replace, and the target file is untouched). -/
theorem claim_C5_counterexample :
    "AA".data.map Char.toLower = "aa".data ∧
    env0.sha256 [1, 2, 3] = "aa" ∧ "aa" ≠ "AA" ∧
    (execUpdate env0 7 info5 st5).2.2 =
      [Effect.download "mgmt/v2/node" ("/opt/bin/node" ++ ".tmp")] ∧
    getF (execUpdate env0 7 info5 st5).2.1.fs "/opt/bin/node" = some ⟨[9], 493⟩ := by
  decide

/-- Claim C5 (amended): the SHA-256 comparison is case-sensitive exact
string equality against the computed hex digest: whenever the expected
string differs from the actual digest (including a difference only in
hex-letter case) the command is rejected, the feed slot is set, and only
the download effect is observable. -/
theorem claim_C5_amended_case_sensitive (env : Env) (t : Int) (info : Info) (st : St)
    (target : String) (tf : File)
    (hdis : env.cfg.disableupdates = false)
    (hlook : List.lookup info.install_path (valid_paths env.cfg) = some target)
    (htmp : getF (fsAfterDownload env st.fs (updatePathOf env info) (target ++ ".tmp"))
      (target ++ ".tmp") = some tf)
    (hhash : env.sha256 tf.data ≠ info.sha256sum) :
    execUpdate env t info st =
      (Outcome.next,
       {st with fs := fsAfterDownload env st.fs (updatePathOf env info) (target ++ ".tmp"),
                ts := t},
       [Effect.download (updatePathOf env info) (target ++ ".tmp")]) := by
  simp [execUpdate, hdis, hlook, htmp, hhash]

theorem claim_C5_witness :
    execUpdate env0 7 info5 st5 =
      (Outcome.next,
       ⟨setF fs0 ("/opt/bin/node" ++ ".tmp") ⟨[1, 2, 3], downloadMode⟩, none, 7⟩,
       [Effect.download "mgmt/v2/node" ("/opt/bin/node" ++ ".tmp")]) := by
  have h := claim_C5_amended_case_sensitive env0 7 info5 st5 "/opt/bin/node"
    ⟨[1, 2, 3], downloadMode⟩ (by decide) (by decide) (by decide) (by decide)
  rw [h]
  decide

/-- Claim C6 counterexample: an update of the config key completes the
rename step, yet the file at the install target keeps the plain download
mode 644, whose owner-execute bit is clear: the chmod goes to the
configured binary path instead (wrapper.py line 541 uses binary_path,
not install_path). -/
theorem claim_C6_counterexample :
    Effect.replace (cfg0.config_file ++ ".tmp") cfg0.config_file
      ∈ (execUpdate env0 11 infoC stC).2.2 ∧
    getF (execUpdate env0 11 infoC stC).2.1.fs cfg0.config_file
      = some ⟨[7], downloadMode⟩ ∧
    Nat.land downloadMode S_IEXEC = 0 := by decide

/-- Claim C6 (amended): after the rename step completes, the chmod is
applied to the configured binary path (its mode is set to the
owner-execute bit), not to the install target: a target distinct from
the binary path keeps the mode the downloaded file had. -/
theorem claim_C6_amended_chmod_goes_to_binary (env : Env) (t : Int) (info : Info)
    (st : St) (target : String) (tf bf : File)
    (hdis : env.cfg.disableupdates = false)
    (hlook : List.lookup info.install_path (valid_paths env.cfg) = some target)
    (htmp : getF (fsAfterDownload env st.fs (updatePathOf env info) (target ++ ".tmp"))
      (target ++ ".tmp") = some tf)
    (hhash : env.sha256 tf.data = info.sha256sum)
    (hrep : env.replaceFails (target ++ ".tmp") target = false)
    (hbin : getF (setF (delF (fsAfterDownload env st.fs (updatePathOf env info)
        (target ++ ".tmp")) (target ++ ".tmp")) target tf)
      env.cfg.binary_path = some bf)
    (hne : target ≠ env.cfg.binary_path) :
    getF (execUpdate env t info st).2.1.fs target = some tf ∧
    getF (execUpdate env t info st).2.1.fs env.cfg.binary_path
      = some ⟨bf.data, S_IEXEC⟩ := by
  simp only [execUpdate, hdis, hlook, htmp, hhash, hrep, Bool.false_eq_true,
    if_false, ne_eq, not_true_eq_false, ite_false, hbin]
  constructor
  · split <;>
      simp [getF_setF_ne _ _ _ _ (Ne.symm hne), getF_setF_self]
  · split <;> simp [getF_setF_self]

theorem claim_C6_witness :
    getF (execUpdate env0 11 infoC stC).2.1.fs env0.cfg.config_file
      = some ⟨[7], downloadMode⟩ ∧
    getF (execUpdate env0 11 infoC stC).2.1.fs env0.cfg.binary_path
      = some ⟨[9], S_IEXEC⟩ := by
  have h := claim_C6_amended_chmod_goes_to_binary env0 11 infoC stC
    env0.cfg.config_file ⟨[7], downloadMode⟩ ⟨[9], 493⟩
    (by decide) (by decide) (by decide) (by decide) (by decide) (by decide) (by decide)
  exact h

/-- Claim C7 counterexample: the certificate file is opened outside the
try block of verify_cmd (wrapper.py line 246), so an unreadable
certificate file raises to the caller instead of collapsing to a
returned pair: the claim that the verifier never raises fails. -/
theorem claim_C7_counterexample :
    verify_cmd none loadC7 env7 parseB7 parseS7 b647 verif7 = Except.error () := rfl

/-- Claim C7 (amended): once the certificate file has been read, the
verifier never raises: every decode or verification failure collapses to
a returned pair of the best-effort payload and false, and the result is
the parsed payload paired with true only when certificate loading, both
decodes, the signature extraction, base64 decoding and the signature
verification all succeed. -/
theorem claim_C7_amended_no_raise_with_readable_cert (pem : String)
    (load_certificate : String → Option String) (inbuf : Envelope)
    (parseBatch : String → Option Batch) (parseSig : String → Option (Option String))
    (b64decode : String → Option (List Nat))
    (cryptoVerify : String → List Nat → String → Bool) :
    (∃ r, verify_cmd (some pem) load_certificate inbuf parseBatch parseSig
      b64decode cryptoVerify = Except.ok r) ∧
    (∀ p, verify_cmd (some pem) load_certificate inbuf parseBatch parseSig
        b64decode cryptoVerify = Except.ok (p, true) →
      ∃ key cj s sig, load_certificate pem = some key ∧
        parseBatch inbuf.line1.trim = some cj ∧ p = some cj ∧
        parseSig inbuf.line2 = some (some s) ∧ b64decode s = some sig ∧
        cryptoVerify key sig inbuf.line1.trim = true) := by
  constructor
  · exact ⟨_, rfl⟩
  · intro p h
    rcases hk : load_certificate pem with _ | key
    · simp only [verify_cmd, hk] at h
      simp at h
    rcases hb : parseBatch inbuf.line1.trim with _ | cj
    · simp only [verify_cmd, hk, hb] at h
      simp at h
    rcases hs : parseSig inbuf.line2 with _ | sf
    · simp only [verify_cmd, hk, hb, hs] at h
      simp at h
    rcases sf with _ | s
    · simp only [verify_cmd, hk, hb, hs] at h
      simp at h
    rcases hd : b64decode s with _ | sig
    · simp only [verify_cmd, hk, hb, hs, hd] at h
      simp at h
    by_cases hv : cryptoVerify key sig inbuf.line1.trim = true
    · simp only [verify_cmd, hk, hb, hs, hd, hv, if_true] at h
      simp only [Except.ok.injEq, Prod.mk.injEq] at h
      exact ⟨key, cj, s, sig, rfl, rfl, h.1.symm, rfl, hd, hv⟩
    · simp only [verify_cmd, hk, hb, hs, hd] at h
      rw [if_neg hv] at h
      simp at h

theorem claim_C7_witness :
    (∃ r, verify_cmd (some "P") loadC7 env7 parseB7 parseS7 b647 verif7
      = Except.ok r) ∧
    (∃ key cj s sig, loadC7 "P" = some key ∧
      parseB7 env7.line1.trim = some cj ∧
      (some (⟨3, []⟩ : Batch) : Option Batch) = some cj ∧
      parseS7 env7.line2 = some (some s) ∧ b647 s = some sig ∧
      verif7 key sig env7.line1.trim = true) := by
  have h := claim_C7_amended_no_raise_with_readable_cert "P" loadC7 env7
    parseB7 parseS7 b647 verif7
  exact ⟨h.1, h.2 (some ⟨3, []⟩) rfl⟩

/-- Claim C8 counterexample: on a hash mismatch the update is rejected
and the target is untouched, but the downloaded temporary file is NOT
discarded: it is still present at the sibling tmp path after the branch
returns (wrapper.py lines 525-529 never delete it). -/
theorem claim_C8_counterexample :
    (execUpdate env0 13 info8 st8).1 = Outcome.next ∧
    getF (execUpdate env0 13 info8 st8).2.1.fs ("/opt/bin/node" ++ ".tmp")
      = some ⟨[1, 2, 3], downloadMode⟩ ∧
    getF (execUpdate env0 13 info8 st8).2.1.fs "/opt/bin/node" = some ⟨[9], 493⟩ := by
  decide

/-- Claim C8 (amended): for every update command whose downloaded bytes
hash to a value not equal to expectedSHA256, the command is rejected and
the previously installed artifact at the target path is byte-for-byte
unchanged, but the downloaded temporary file is left on disk at the
sibling tmp path rather than discarded. -/
theorem claim_C8_amended_hash_mismatch_frame (env : Env) (t : Int) (info : Info)
    (st : St) (target : String) (tf : File)
    (hdis : env.cfg.disableupdates = false)
    (hlook : List.lookup info.install_path (valid_paths env.cfg) = some target)
    (htmp : getF (fsAfterDownload env st.fs (updatePathOf env info) (target ++ ".tmp"))
      (target ++ ".tmp") = some tf)
    (hhash : env.sha256 tf.data ≠ info.sha256sum) :
    (execUpdate env t info st).1 = Outcome.next ∧
    getF (execUpdate env t info st).2.1.fs target = getF st.fs target ∧
    getF (execUpdate env t info st).2.1.fs (target ++ ".tmp") = some tf := by
  have hstep : execUpdate env t info st =
      (Outcome.next,
       {st with fs := fsAfterDownload env st.fs (updatePathOf env info) (target ++ ".tmp"),
                ts := t},
       [Effect.download (updatePathOf env info) (target ++ ".tmp")]) := by
    simp [execUpdate, hdis, hlook, htmp, hhash]
  rw [hstep]
  refine ⟨rfl, ?_, htmp⟩
  show getF (fsAfterDownload env st.fs (updatePathOf env info) (target ++ ".tmp")) target
    = getF st.fs target
  unfold fsAfterDownload
  rcases hrem : env.remote (updatePathOf env info) with _ | bs
  · rfl
  · exact getF_setF_ne _ _ _ _ (append_tmp_ne target)

theorem claim_C8_witness :
    (execUpdate env0 13 info8 st8).1 = Outcome.next ∧
    getF (execUpdate env0 13 info8 st8).2.1.fs "/opt/bin/node"
      = getF st8.fs "/opt/bin/node" ∧
    getF (execUpdate env0 13 info8 st8).2.1.fs ("/opt/bin/node" ++ ".tmp")
      = some ⟨[1, 2, 3], downloadMode⟩ := by
  have h := claim_C8_amended_hash_mismatch_frame env0 13 info8 st8 "/opt/bin/node"
    ⟨[1, 2, 3], downloadMode⟩ (by decide) (by decide) (by decide) (by decide)
  exact h

/-- Claim C9: an update command whose install path key is not one of the
four fixed registry keys is rejected before any download occurs (no
download effect is emitted) and writes no local file at all: the state
is returned with only the feed slot set. -/
theorem claim_C9_unknown_path_rejected (env : Env) (t : Int) (info : Info) (st : St)
    (h : List.lookup info.install_path (valid_paths env.cfg) = none) :
    execUpdate env t info st = (Outcome.next, {st with ts := t}, []) := by
  by_cases hd : env.cfg.disableupdates <;> simp [execUpdate, hd, h]

theorem claim_C9_witness :
    execUpdate env0 17 info9 ⟨fs0, none, 0⟩ = (Outcome.next, ⟨fs0, none, 17⟩, []) := by
  have h := claim_C9_unknown_path_rejected env0 17 info9 ⟨fs0, none, 0⟩ (by decide)
  exact h

/-- Claim C10: after an update command completes the rename step,
whatever registry key was updated, the file at the configured binary
path is chmodded to exactly the owner-execute bit S_IEXEC (read and
write bits removed), and no other path is touched by the chmod step, so
a target distinct from the binary path keeps its permissions. -/
theorem claim_C10_chmod_sets_binary_exec_only (env : Env) (t : Int) (info : Info)
    (st : St) (target : String) (tf bf : File)
    (hdis : env.cfg.disableupdates = false)
    (hlook : List.lookup info.install_path (valid_paths env.cfg) = some target)
    (htmp : getF (fsAfterDownload env st.fs (updatePathOf env info) (target ++ ".tmp"))
      (target ++ ".tmp") = some tf)
    (hhash : env.sha256 tf.data = info.sha256sum)
    (hrep : env.replaceFails (target ++ ".tmp") target = false)
    (hbin : getF (setF (delF (fsAfterDownload env st.fs (updatePathOf env info)
        (target ++ ".tmp")) (target ++ ".tmp")) target tf)
      env.cfg.binary_path = some bf) :
    getF (execUpdate env t info st).2.1.fs env.cfg.binary_path
      = some ⟨bf.data, S_IEXEC⟩ ∧
    (∀ p, p ≠ env.cfg.binary_path →
      getF (execUpdate env t info st).2.1.fs p =
      getF (setF (delF (fsAfterDownload env st.fs (updatePathOf env info)
        (target ++ ".tmp")) (target ++ ".tmp")) target tf) p) := by
  simp only [execUpdate, hdis, hlook, htmp, hhash, hrep, Bool.false_eq_true,
    if_false, ne_eq, not_true_eq_false, ite_false, hbin]
  constructor
  · split <;> simp [getF_setF_self]
  · intro p hp
    split <;> simp [getF_setF_ne _ _ _ _ (Ne.symm hp)]

theorem claim_C10_witness :
    getF (execUpdate env0 19 infoC10 ⟨fs0, none, 0⟩).2.1.fs env0.cfg.binary_path
      = some ⟨[9], S_IEXEC⟩ ∧
    getF (execUpdate env0 19 infoC10 ⟨fs0, none, 0⟩).2.1.fs env0.cfg.cert_path
      = some ⟨[7], downloadMode⟩ := by
  have h := claim_C10_chmod_sets_binary_exec_only env0 19 infoC10 ⟨fs0, none, 0⟩
    env0.cfg.cert_path ⟨[7], downloadMode⟩ ⟨[9], 493⟩
    (by decide) (by decide) (by decide) (by decide) (by decide) (by decide)
  refine ⟨h.1, ?_⟩
  rw [h.2 env0.cfg.cert_path (by decide)]
  decide
